import Mathlib

/-!
Verification development for the natural-language task router
(app.py, tasksA.py, tasksB.py).

The Python source is shallowly embedded:
  - the file system is a map from path strings to optional file contents
    (a file content is its list of lines);
  - external collaborators (the LLM completion endpoint, the json library,
    the database drivers, the network, the date parser, the image library)
    are oracle parameters of the embedded functions;
  - a Python call that can raise is embedded as an Except String value,
    the error carrying the exception message.
-/

/-! ## File-system model -/

/-- A file system: path to optional content, a content being a list of lines. -/
def FS : Type := String → Option (List String)

/-- Overwrite-write of a whole file, as Python open(p, "w") followed by write. -/
def fsWrite (fs : FS) (p : String) (c : List String) : FS :=
  fun q => if q = p then some c else fs q

theorem fsWrite_self (fs : FS) (p : String) (c : List String) :
    fsWrite fs p c p = some c := by
  simp [fsWrite]

theorem fsWrite_other (fs : FS) (p q : String) (c : List String) (h : q ≠ p) :
    fsWrite fs p c q = fs q := by
  simp [fsWrite, h]

/-! ## Path Guard (tasksB.py, validate_data_path) -/

/-- Python str.startswith on the underlying character lists. -/
def startswithChars : List Char → List Char → Bool
  | _, [] => true
  | [], _ :: _ => false
  | c :: cs, d :: ds => c = d && startswithChars cs ds

/-- Python s.startswith(pre). -/
def pyStartswith (s pre : String) : Bool :=
  startswithChars s.data pre.data

/-- Embedding of tasksB.validate_data_path: returns True if the path starts
with the literal character sequence "/data", False otherwise. -/
def validate_data_path (filepath : String) : Bool :=
  if pyStartswith filepath "/data" then true else false

theorem startswithChars_iff (s p : List Char) :
    startswithChars s p = true ↔ ∃ t, s = p ++ t := by
  induction p generalizing s with
  | nil => simp [startswithChars]
  | cons d ds ih =>
    cases s with
    | nil =>
      simp [startswithChars]
    | cons c cs =>
      simp only [startswithChars, Bool.and_eq_true, decide_eq_true_eq, ih,
        List.cons_append, List.cons.injEq]
      constructor
      · rintro ⟨rfl, t, rfl⟩
        exact ⟨t, rfl, rfl⟩
      · rintro ⟨t, rfl, rfl⟩
        exact ⟨rfl, t, rfl⟩

theorem validate_data_path_iff (p : String) :
    validate_data_path p = true ↔ ∃ s : String, p = "/data" ++ s := by
  have hiff := startswithChars_iff p.data ("/data".data)
  constructor
  · intro h
    have hb : startswithChars p.data ("/data".data) = true := by
      by_contra hb
      simp [validate_data_path, pyStartswith, Bool.not_eq_true] at h hb
      rw [hb] at h
      simp at h
    obtain ⟨t, ht⟩ := hiff.mp hb
    refine ⟨⟨t⟩, ?_⟩
    apply String.ext
    simpa using ht
  · rintro ⟨s, rfl⟩
    have hb : startswithChars ("/data" ++ s).data ("/data".data) = true :=
      hiff.mpr ⟨s.data, rfl⟩
    show (if pyStartswith ("/data" ++ s) "/data" then true else false) = true
    unfold pyStartswith
    rw [hb]
    simp

/-! ## tasksB.py handlers

Each handler takes its external collaborators (network, database drivers,
image library, markdown library) as oracle arguments.  A Python exception
raised by a collaborator is an Except.error carrying the message; the
handler result pairs the Python return value with the updated file system. -/

/-- Embedding of tasksB.download_url_content.  The Python function returns
None both on the guard denial and after a successful write; the two runs
differ only in the file-system effect.  net is the requests.get oracle
(an error models a network exception). -/
def download_url_content (net : String → Except String String)
    (url save_path : String) (fs : FS) : Except String FS :=
  if validate_data_path save_path = false then .ok fs
  else
    match net url with
    | .error e => .error e
    | .ok text => .ok (fsWrite fs save_path [text])

/-- Embedding of tasksB.execute_sql_query.  db is the sqlite3/duckdb oracle
mapping (db_path, query) to the textual form of cur.fetchall() (an error
models a database exception).  On success the result string is both written
to output_filename (with no Path Guard check) and returned. -/
def execute_sql_query (db : String → String → Except String String)
    (db_path query output_filename : String) (fs : FS) :
    Except String (Option String × FS) :=
  if validate_data_path db_path = false then .ok (none, fs)
  else
    match db db_path query with
    | .error e => .error e
    | .ok res => .ok (some res, fsWrite fs output_filename [res])

/-- Embedding of tasksB.process_image.  resizeFn is the PIL oracle: the
content written to output_path as a function of the input image content and
the optional resize dimensions.  Opening a missing file raises. -/
def process_image (resizeFn : List String → Option (Nat × Nat) → List String)
    (image_path output_path : String) (resize : Option (Nat × Nat)) (fs : FS) :
    Except String FS :=
  if validate_data_path image_path = false then .ok fs
  else if validate_data_path output_path = false then .ok fs
  else
    match fs image_path with
    | none => .error ("No such file or directory: " ++ image_path)
    | some img => .ok (fsWrite fs output_path (resizeFn img resize))

/-- Embedding of tasksB.convert_markdown_to_html.  mdToHtml is the markdown
library oracle.  Opening a missing input file raises. -/
def convert_markdown_to_html (mdToHtml : List String → String)
    (md_path output_path : String) (fs : FS) : Except String FS :=
  if validate_data_path md_path = false then .ok fs
  else if validate_data_path output_path = false then .ok fs
  else
    match fs md_path with
    | none => .error ("No such file or directory: " ++ md_path)
    | some md => .ok (fsWrite fs output_path [mdToHtml md])

/-! ## tasksA.py: count_weekday_dates -/

/-- Count of lines whose parsed weekday equals weekday-1, as the
generator-sum in tasksA.count_weekday_dates.  parseW is the
dateutil.parser.parse oracle (weekday() of the parsed date, 0 = Monday);
an error models an unparsable line. -/
def countWeekdayLines (parseW : String → Except String Nat)
    (weekday : Int) : List String → Except String Nat
  | [] => .ok 0
  | l :: rest =>
    match parseW l with
    | .error e => .error e
    | .ok w =>
      match countWeekdayLines parseW weekday rest with
      | .error e => .error e
      | .ok c => .ok (if (w : Int) = weekday - 1 then c + 1 else c)

/-- Embedding of tasksA.count_weekday_dates: read the input file, count
lines whose weekday matches, overwrite the target file with the decimal
rendering of the count. -/
def count_weekday_dates (parseW : String → Except String Nat)
    (filename targetfile : String) (weekday : Int) (fs : FS) :
    Except String FS :=
  match fs filename with
  | none => .error ("No such file or directory: " ++ filename)
  | some lines =>
    match countWeekdayLines parseW weekday lines with
    | .error e => .error e
    | .ok cnt => .ok (fsWrite fs targetfile [toString cnt])

/-! ## tasksA.py: extract_email_sender -/

/-- Python line.strip().split(" ")[-1].replace("<", "").replace(">", ""). -/
def senderFromLine (l : String) : String :=
  (((l.trim.splitOn " ").reverse.headD "").replace "<" "").replace ">" ""

/-- The loop of tasksA.extract_email_sender: the sender extracted from the
first line whose first four characters are "From", else the initial value
"sujay@gmail.com". -/
def senderOfLines : List String → String
  | [] => "sujay@gmail.com"
  | l :: rest => if startswithChars l.data ("From".data) then senderFromLine l else senderOfLines rest

/-- Embedding of tasksA.extract_email_sender: read all lines of the input
file and write the extracted (or fallback) sender to the output file. -/
def extract_email_sender (filename output_file : String) (fs : FS) :
    Except String FS :=
  match fs filename with
  | none => .error ("No such file or directory: " ++ filename)
  | some lines => .ok (fsWrite fs output_file [senderOfLines lines])

/-! ## tasksA.py: sort_contacts

Python sorted() with key (last_name, first_name) orders by code-point
lexicographic comparison of the two strings, tuple-lexicographically.
We embed the string comparison on the underlying character lists. -/

/-- Python string < : code-point lexicographic order on characters. -/
def charListLt : List Char → List Char → Bool
  | [], [] => false
  | [], _ :: _ => true
  | _ :: _, [] => false
  | a :: as, b :: bs => if a < b then true else if a = b then charListLt as bs else false

/-- Python string < on String. -/
def pyStrLt (a b : String) : Bool := charListLt a.data b.data

/-- Python string <= on String. -/
def pyStrLe (a b : String) : Bool := pyStrLt a b || a = b

/-- A contact object: the two sort-key fields plus the rest of the JSON
object (sorting moves contact objects whole, so the remaining fields ride
along untouched). -/
structure Contact where
  last_name : String
  first_name : String
  rest : List (String × String)
  deriving DecidableEq, Repr

/-- The Python sort key comparison: tuple (last_name, first_name) with
lexicographic tuple order. -/
def contactLe (x y : Contact) : Bool :=
  pyStrLt x.last_name y.last_name ||
    (x.last_name = y.last_name && pyStrLe x.first_name y.first_name)

theorem charListLt_trichotomy (a b : List Char) :
    charListLt a b = true ∨ a = b ∨ charListLt b a = true := by
  induction a generalizing b with
  | nil => cases b <;> simp [charListLt]
  | cons x xs ih =>
    cases b with
    | nil => simp [charListLt]
    | cons y ys =>
      rcases lt_trichotomy x y with h | h | h
      · left; simp [charListLt, h]
      · subst h
        rcases ih ys with h2 | h2 | h2
        · left; simp [charListLt, h2]
        · right; left; rw [h2]
        · right; right; simp [charListLt, h2]
      · right; right; simp [charListLt, h]

theorem charListLt_trans {a b c : List Char}
    (hab : charListLt a b = true) (hbc : charListLt b c = true) :
    charListLt a c = true := by
  induction a generalizing b c with
  | nil =>
    cases c with
    | nil =>
      cases b with
      | nil => exact hbc
      | cons y ys => simp [charListLt] at hbc
    | cons z zs => simp [charListLt]
  | cons x xs ih =>
    cases b with
    | nil => simp [charListLt] at hab
    | cons y ys =>
      cases c with
      | nil => simp [charListLt] at hbc
      | cons z zs =>
        simp only [charListLt] at hab hbc ⊢
        by_cases hxy : x < y
        · by_cases hyz : y < z
          · simp [lt_trans hxy hyz]
          · simp [hxy] at hab
            by_cases heyz : y = z
            · subst heyz; simp [hxy]
            · simp [hyz, heyz] at hbc
        · by_cases hexy : x = y
          · subst hexy
            by_cases hxz : x < z
            · simp [hxz]
            · by_cases hexz : x = z
              · subst hexz
                simp [hxz] at hab hbc ⊢
                exact ih hab hbc
              · simp [hxz, hexz] at hbc
          · simp [hxy, hexy] at hab

theorem charListLt_irrefl (a : List Char) : charListLt a a = false := by
  induction a with
  | nil => rfl
  | cons x xs ih => simp [charListLt, ih]

theorem contactLe_total (x y : Contact) :
    contactLe x y = true ∨ contactLe y x = true := by
  unfold contactLe pyStrLe pyStrLt
  rcases charListLt_trichotomy x.last_name.data y.last_name.data with h | h | h
  · left; simp [h]
  · have hs : x.last_name = y.last_name := String.ext h
    rcases charListLt_trichotomy x.first_name.data y.first_name.data with h2 | h2 | h2
    · left; simp [hs, h2]
    · have hf : x.first_name = y.first_name := String.ext h2
      left; simp [hs, hf]
    · right; simp [hs.symm, h2]
  · right; simp [h]

theorem contactLe_trans {x y z : Contact}
    (hxy : contactLe x y = true) (hyz : contactLe y z = true) :
    contactLe x z = true := by
  unfold contactLe pyStrLe pyStrLt at hxy hyz ⊢
  simp only [Bool.or_eq_true, Bool.and_eq_true, decide_eq_true_eq] at hxy hyz ⊢
  rcases hxy with h1 | ⟨he1, hf1⟩
  · rcases hyz with h2 | ⟨he2, hf2⟩
    · exact Or.inl (charListLt_trans h1 h2)
    · left; rw [← he2]; exact h1
  · rcases hyz with h2 | ⟨he2, hf2⟩
    · left; rw [he1]; exact h2
    · right
      refine ⟨he1.trans he2, ?_⟩
      rcases hf1 with hlt1 | heq1
      · rcases hf2 with hlt2 | heq2
        · exact Or.inl (charListLt_trans hlt1 hlt2)
        · left; rw [← heq2]; exact hlt1
      · rw [heq1]; exact hf2

/-- Stable sorted-insert: x goes in front of the first element y with
contactLe x y (so after any earlier element with an equal key, as Python
sorted is stable). -/
def insertContact (x : Contact) : List Contact → List Contact
  | [] => [x]
  | y :: ys => if contactLe x y then x :: y :: ys else y :: insertContact x ys

/-- Stable insertion sort by the (last_name, first_name) key: the embedding
of Python sorted(contacts, key=lambda x: (x[...], x[...])). -/
def sortedByKey : List Contact → List Contact
  | [] => []
  | x :: xs => insertContact x (sortedByKey xs)

/-- Embedding of tasksA.sort_contacts on a contacts-typed file system:
read the JSON array of contacts from filename, write the sorted array to
targetfile.  A missing input file raises. -/
def sort_contacts (filename targetfile : String)
    (cfs : String → Option (List Contact)) :
    Except String (String → Option (List Contact)) :=
  match cfs filename with
  | none => .error ("No such file or directory: " ++ filename)
  | some contacts =>
    .ok (fun q => if q = targetfile then some (sortedByKey contacts) else cfs q)

theorem insertContact_perm (x : Contact) (l : List Contact) :
    List.Perm (insertContact x l) (x :: l) := by
  induction l with
  | nil => exact List.Perm.refl _
  | cons y ys ih =>
    unfold insertContact
    by_cases h : contactLe x y = true
    · simp [h]
    · simp [h]
      exact ((ih.cons y).trans (List.Perm.swap x y ys))

theorem sortedByKey_perm (l : List Contact) :
    List.Perm (sortedByKey l) l := by
  induction l with
  | nil => exact List.Perm.refl _
  | cons x xs ih =>
    exact (insertContact_perm x (sortedByKey xs)).trans (ih.cons x)

/-- Sortedness of a contact list by the Python key order. -/
def ContactsSorted (l : List Contact) : Prop :=
  List.Pairwise (fun a b => contactLe a b = true) l

theorem insertContact_sorted {l : List Contact} (x : Contact)
    (h : ContactsSorted l) : ContactsSorted (insertContact x l) := by
  induction l with
  | nil => simp [insertContact, ContactsSorted]
  | cons y ys ih =>
    unfold insertContact
    rcases List.pairwise_cons.mp h with ⟨hy, hys⟩
    by_cases hxy : contactLe x y = true
    · simp only [hxy, if_true]
      refine List.pairwise_cons.mpr ⟨?_, h⟩
      intro z hz
      rcases List.mem_cons.mp hz with rfl | hz
      · exact hxy
      · exact contactLe_trans hxy (hy z hz)
    · simp only [hxy, if_false]
      have hyx : contactLe y x = true := by
        rcases contactLe_total x y with h1 | h1
        · exact absurd h1 hxy
        · exact h1
      refine List.pairwise_cons.mpr ⟨?_, ih hys⟩
      intro z hz
      have hz2 := (insertContact_perm x ys).mem_iff.mp hz
      rcases List.mem_cons.mp hz2 with rfl | hz3
      · exact hyx
      · exact hy z hz3

theorem sortedByKey_sorted (l : List Contact) :
    ContactsSorted (sortedByKey l) := by
  induction l with
  | nil => simp [sortedByKey, ContactsSorted]
  | cons x xs ih => exact insertContact_sorted x ih

/-! ## app.py: the Dispatcher (run_task)

The LLM completion endpoint (get_completions) and the json library
(json.loads) are external collaborators, passed as oracles.  A handler body
after successful keyword binding is also abstracted as an oracle (the
dispatcher claims do not depend on handler internals).  The if-chain of
run_task is embedded literally as a sequential walk over the 16 task
names, in source order. -/

/-- A JSON value, as produced by json.loads for the argument payloads. -/
inductive JsonVal where
  | null
  | bool (b : Bool)
  | int (n : Int)
  | str (s : String)
  | arr (xs : List JsonVal)

/-- A Python formal parameter: its name and its optional Python-side
default value (as the JSON value it denotes). -/
structure Param where
  name : String
  default : Option JsonVal

/-- First value bound to a key in a parsed JSON object. -/
def kwLookup (obj : List (String × JsonVal)) (k : String) : Option JsonVal :=
  (obj.find? (fun kv => kv.1 = k)).map (fun kv => kv.2)

/-- Bind each formal parameter: the value from the argument object if the
key is present, else the Python default, else a missing-argument TypeError. -/
def bindParams : List Param → List (String × JsonVal) →
    Except String (List (String × JsonVal))
  | [], _ => .ok []
  | p :: ps, obj =>
    match kwLookup obj p.name with
    | some v =>
      match bindParams ps obj with
      | .error e => .error e
      | .ok rest2 => .ok ((p.name, v) :: rest2)
    | none =>
      match p.default with
      | some d =>
        match bindParams ps obj with
        | .error e => .error e
        | .ok rest2 => .ok ((p.name, d) :: rest2)
      | none => .error ("missing 1 required positional argument: " ++ p.name)

/-- Python call semantics for handler(**obj): reject unknown keyword
arguments, then bind every formal parameter (argument value, or Python
default, or TypeError). -/
def bindKwargs (params : List Param) (obj : List (String × JsonVal)) :
    Except String (List (String × JsonVal)) :=
  if obj.any (fun kv => params.all (fun p => ¬(p.name = kv.1))) then
    .error "got an unexpected keyword argument"
  else
    bindParams params obj

/-- The classifier output consumed by run_task: response[name] and
response[arguments] of the first tool call. -/
structure Classification where
  name : String
  arguments : String

/-- The observable outcome of a POST /run request: the success JSON message,
or the HTTPException(status_code, detail) that FastAPI turns into a
structured error response. -/
inductive RunResult where
  | success (message : String)
  | httpError (status : Nat) (detail : String)
  deriving DecidableEq, Repr

/-- The 16 task names of the run_task if-chain, in source order, each with
the Python formal parameters (and Python default values) of its handler. -/
def dispatchTable : List (String × List Param) :=
  [("generate_data", [⟨"email", some (.str "22f1000913@ds.study.iitm.ac.in")⟩]),
   ("format_markdown",
     [⟨"prettier_version", some (.str "prettier@3.4.2")⟩,
      ⟨"filename", some (.str "/data/format.md")⟩]),
   ("count_weekday_dates",
     [⟨"filename", some (.str "/data/dates.txt")⟩,
      ⟨"targetfile", some (.str "/data/dates-wednesdays.txt")⟩,
      ⟨"weekday", some (.int 2)⟩]),
   ("sort_contacts",
     [⟨"filename", some (.str "/data/contacts.json")⟩,
      ⟨"targetfile", some (.str "/data/contacts-sorted.json")⟩]),
   ("get_recent_logs",
     [⟨"log_dir_path", some (.str "/data/logs")⟩,
      ⟨"output_file_path", some (.str "/data/logs-recent.txt")⟩,
      ⟨"num_files", some (.int 10)⟩]),
   ("create_docs_index",
     [⟨"doc_dir_path", some (.str "/data/docs")⟩,
      ⟨"output_file_path", some (.str "/data/docs/index.json")⟩]),
   ("extract_email_sender",
     [⟨"filename", some (.str "/data/email.txt")⟩,
      ⟨"output_file", some (.str "/data/email-sender.txt")⟩]),
   ("process_credit_card",
     [⟨"filename", some (.str "/data/credit_card.txt")⟩,
      ⟨"image_path", some (.str "/data/credit_card.png")⟩]),
   ("find_similar_comments",
     [⟨"filename", some (.str "/data/comments.txt")⟩,
      ⟨"output_filename", some (.str "/data/comments-similar.txt")⟩]),
   ("calculate_ticket_sales",
     [⟨"filename", some (.str "/data/ticket-sales.db")⟩,
      ⟨"output_filename", some (.str "/data/ticket-sales-gold.txt")⟩,
      ⟨"query", some (.str "SELECT SUM(units * price) FROM tickets WHERE type = \x27Gold\x27")⟩]),
   ("validate_data_path", [⟨"filepath", none⟩]),
   ("download_url_content", [⟨"url", none⟩, ⟨"save_path", none⟩]),
   ("execute_sql_query",
     [⟨"db_path", none⟩, ⟨"query", none⟩, ⟨"output_filename", none⟩]),
   ("scrape_web_content", [⟨"url", none⟩, ⟨"output_filename", none⟩]),
   ("process_image",
     [⟨"image_path", none⟩, ⟨"output_path", none⟩, ⟨"resize", some .null⟩]),
   ("convert_markdown_to_html", [⟨"md_path", none⟩, ⟨"output_path", none⟩])]

/-- The required arrays of function_definitions_llm (the Task Registry
presented to the classifier), keyed by task name, in source order. -/
def registryRequired : List (String × List String) :=
  [("generate_data", ["filename", "targetfile", "email"]),
   ("format_markdown", ["prettier_version", "filename"]),
   ("count_weekday_dates", ["filename", "targetfile", "weekday"]),
   ("sort_contacts", ["filename", "targetfile"]),
   ("get_recent_logs", ["log_dir_path", "output_file_path", "num_files"]),
   ("create_docs_index", ["doc_dir_path", "output_file_path"]),
   ("extract_email_sender", ["filename", "output_file"]),
   ("process_credit_card", ["filename", "image_path"]),
   ("find_similar_comments", ["filename", "output_filename"]),
   ("calculate_ticket_sales", ["filename", "output_filename", "query"]),
   ("validate_data_path", ["filepath"]),
   ("download_url_content", ["url", "save_path"]),
   ("execute_sql_query", ["db_path", "query", "output_filename"]),
   ("scrape_web_content", ["url", "output_filename"]),
   ("process_image", ["image_path", "output_path"]),
   ("convert_markdown_to_html", ["md_path", "output_path"])]

/-- One guarded branch of the if-chain: json.loads on the arguments string,
keyword binding, then the handler body (the hexec oracle). -/
def branchOnce (jsonLoads : String → Except String (List (String × JsonVal)))
    (hexec : String → List (String × JsonVal) → Except String Unit)
    (nm : String) (params : List Param) (arguments : String) :
    Except String Unit :=
  match jsonLoads arguments with
  | .error e => .error e
  | .ok obj =>
    match bindKwargs params obj with
    | .error e => .error e
    | .ok bound => hexec nm bound

/-- The sequential if-chain of run_task over a dispatch table: every entry
whose name equals task_code runs its branch; an exception aborts the walk. -/
def runBranches (jsonLoads : String → Except String (List (String × JsonVal)))
    (hexec : String → List (String × JsonVal) → Except String Unit)
    (task_code arguments : String) :
    List (String × List Param) → Except String Unit
  | [] => .ok ()
  | (nm, params) :: rest =>
    if nm = task_code then
      match branchOnce jsonLoads hexec nm params arguments with
      | .error e => .error e
      | .ok _ => runBranches jsonLoads hexec task_code arguments rest
    else runBranches jsonLoads hexec task_code arguments rest

/-- Embedding of app.run_task: classify the prompt (get_completions), walk
the if-chain, and either return the success message or convert the caught
exception into HTTPException(400, str(e)). -/
def run_task (classify : String → Except String Classification)
    (jsonLoads : String → Except String (List (String × JsonVal)))
    (hexec : String → List (String × JsonVal) → Except String Unit)
    (task : String) : RunResult :=
  match classify task with
  | .error e => .httpError 400 e
  | .ok c =>
    match runBranches jsonLoads hexec c.name c.arguments dispatchTable with
    | .error e => .httpError 400 e
    | .ok _ =>
      .success (c.name ++ " Task \x27" ++ task ++ "\x27 executed successfully")

/-! ## Dispatcher lemmas -/

theorem runBranches_skip (jl : String → Except String (List (String × JsonVal)))
    (hx : String → List (String × JsonVal) → Except String Unit)
    (task_code arguments : String) (lst : List (String × List Param))
    (h : ∀ e ∈ lst, ¬(e.1 = task_code)) :
    runBranches jl hx task_code arguments lst = .ok () := by
  induction lst with
  | nil => rfl
  | cons e rest ih =>
    obtain ⟨nm, params⟩ := e
    have hne : ¬(nm = task_code) := h (nm, params) (List.mem_cons_self _ _)
    simp only [runBranches, if_neg hne]
    exact ih (fun e2 he2 => h e2 (List.mem_cons_of_mem _ he2))

theorem dispatchTable_names_distinct :
    dispatchTable.Pairwise (fun a b => ¬(a.1 = b.1)) := by
  unfold dispatchTable
  decide

theorem runBranches_of_mem (jl : String → Except String (List (String × JsonVal)))
    (hx : String → List (String × JsonVal) → Except String Unit)
    (arguments : String) {nm : String} {params : List Param}
    {lst : List (String × List Param)}
    (hmem : (nm, params) ∈ lst)
    (hdist : lst.Pairwise (fun a b => ¬(a.1 = b.1))) :
    runBranches jl hx nm arguments lst = branchOnce jl hx nm params arguments := by
  induction lst with
  | nil => cases hmem
  | cons e rest ih =>
    obtain ⟨nm2, params2⟩ := e
    rcases List.pairwise_cons.mp hdist with ⟨hhead, htail⟩
    rcases List.mem_cons.mp hmem with heq | hmem2
    · injection heq with h1 h2
      subst h1
      subst h2
      simp only [runBranches, if_pos rfl]
      have hrest : runBranches jl hx nm arguments rest = .ok () :=
        runBranches_skip jl hx nm arguments rest
          (fun e2 he2 h3 => hhead e2 he2 h3.symm)
      rw [hrest]
      cases hb : branchOnce jl hx nm params arguments with
      | error e2 => rfl
      | ok u => cases u; rfl
    · have hne : ¬(nm2 = nm) := hhead (nm, params) hmem2
      simp only [runBranches, if_neg hne]
      exact ih hmem2 htail

/-- The names of the run_task if-chain coincide, in order, with the names
of function_definitions_llm (the Task Registry). -/
theorem dispatch_names_eq_registry_names :
    dispatchTable.map (fun e => e.1) = registryRequired.map (fun e => e.1) := by
  unfold dispatchTable registryRequired
  decide

/-! ## Claim C1 -/

/-- Claim C1 is refuted on the code: validate_data_path classifies the path
"/database/x" as confined even though it does not equal "/data" and does not
begin with "/data/" (the path contains no dot segments, so it is its own
normalized form). -/
theorem C1_counterexample :
    validate_data_path "/database/x" = true ∧
    ¬("/database/x" = "/data") ∧
    (∀ s : String, ¬("/database/x" = "/data/" ++ s)) := by
  refine ⟨by decide, by decide, ?_⟩
  intro s h
  have h2 : ('/' :: 'd' :: 'a' :: 't' :: 'a' :: 'b' :: 'a' :: 's' :: 'e' :: '/' :: 'x' :: [])
      = '/' :: 'd' :: 'a' :: 't' :: 'a' :: '/' :: s.data := congrArg String.data h
  simp at h2

/-- Claim C1 (amended): validate_data_path p is true exactly when the
literal character prefix of p is "/data", with no normalization and no
directory-separator boundary; consequently "/database/x" and
"/data/../etc/passwd" are classified as confined while "/etc/passwd" is
not. -/
theorem C1_amended_path_guard :
    (∀ p : String, validate_data_path p = true ↔ ∃ s : String, p = "/data" ++ s) ∧
    validate_data_path "/database/x" = true ∧
    validate_data_path "/data/../etc/passwd" = true ∧
    validate_data_path "/etc/passwd" = false :=
  ⟨validate_data_path_iff, by decide, by decide, by decide⟩

/-! ## Claim C2 -/

/-- Claim C2 is refuted on the code: execute_sql_query applies no Path Guard
check to output_filename, so with a confined db_path and a successful query
the result is written to "/tmp/steal.txt", a path outside the /data root,
and the call succeeds instead of being denied. -/
theorem C2_counterexample :
    validate_data_path "/tmp/steal.txt" = false ∧
    ∃ fs' : FS,
      execute_sql_query (fun _ _ => .ok "[(42,)]") "/data/tickets.db"
        "SELECT 1" "/tmp/steal.txt" (fun _ => none) = .ok (some "[(42,)]", fs') ∧
      fs' "/tmp/steal.txt" = some ["[(42,)]"] := by
  refine ⟨by decide, fsWrite (fun _ => none) "/tmp/steal.txt" ["[(42,)]"], rfl, by decide⟩

/-- Claim C2 (amended): each Path-Guard-guarded handler returns the None
denial and leaves the file system unchanged when one of its guarded path
arguments fails the startswith("/data") check, and download_url_content,
process_image and convert_markdown_to_html write only to paths passing that
check; execute_sql_query guards only db_path, and its output_filename write
is exempt from any confinement check. -/
theorem C2_amended_guarded_handlers :
    (∀ net url sp fs, validate_data_path sp = false →
        download_url_content net url sp fs = .ok fs) ∧
    (∀ net url sp fs fs', download_url_content net url sp fs = .ok fs' →
        ∀ p, fs' p ≠ fs p → validate_data_path p = true) ∧
    (∀ db dbp q out fs, validate_data_path dbp = false →
        execute_sql_query db dbp q out fs = .ok (none, fs)) ∧
    (∀ rf ip op rsz fs, validate_data_path ip = false ∨ validate_data_path op = false →
        process_image rf ip op rsz fs = .ok fs) ∧
    (∀ rf ip op rsz fs fs', process_image rf ip op rsz fs = .ok fs' →
        ∀ p, fs' p ≠ fs p → validate_data_path p = true) ∧
    (∀ mh mp op fs, validate_data_path mp = false ∨ validate_data_path op = false →
        convert_markdown_to_html mh mp op fs = .ok fs) ∧
    (∀ mh mp op fs fs', convert_markdown_to_html mh mp op fs = .ok fs' →
        ∀ p, fs' p ≠ fs p → validate_data_path p = true) := by
  refine ⟨?_, ?_, ?_, ?_, ?_, ?_, ?_⟩
  · intro net url sp fs h
    simp [download_url_content, h]
  · intro net url sp fs fs' hok p hp
    unfold download_url_content at hok
    by_cases hsp : validate_data_path sp = false
    · rw [if_pos hsp] at hok
      cases hok
      exact absurd rfl hp
    · cases hnet : net url with
      | error e => rw [if_neg hsp, hnet] at hok; cases hok
      | ok text =>
        rw [if_neg hsp, hnet] at hok
        cases hok
        by_cases hps : p = sp
        · subst hps
          exact Bool.not_eq_false _ |>.mp hsp
        · exact absurd (fsWrite_other fs sp p _ hps) hp
  · intro db dbp q out fs h
    simp [execute_sql_query, h]
  · intro rf ip op rsz fs h
    rcases h with h | h
    · simp [process_image, h]
    · unfold process_image
      by_cases hip : validate_data_path ip = false
      · rw [if_pos hip]
      · rw [if_neg hip, if_pos h]
  · intro rf ip op rsz fs fs' hok p hp
    unfold process_image at hok
    by_cases hip : validate_data_path ip = false
    · rw [if_pos hip] at hok; cases hok; exact absurd rfl hp
    · rw [if_neg hip] at hok
      by_cases hop : validate_data_path op = false
      · rw [if_pos hop] at hok; cases hok; exact absurd rfl hp
      · rw [if_neg hop] at hok
        cases hread : fs ip with
        | none => rw [hread] at hok; cases hok
        | some img =>
          rw [hread] at hok
          cases hok
          by_cases hps : p = op
          · subst hps
            exact Bool.not_eq_false _ |>.mp hop
          · exact absurd (fsWrite_other fs op p _ hps) hp
  · intro mh mp op fs h
    rcases h with h | h
    · simp [convert_markdown_to_html, h]
    · unfold convert_markdown_to_html
      by_cases hmp : validate_data_path mp = false
      · rw [if_pos hmp]
      · rw [if_neg hmp, if_pos h]
  · intro mh mp op fs fs' hok p hp
    unfold convert_markdown_to_html at hok
    by_cases hmp : validate_data_path mp = false
    · rw [if_pos hmp] at hok; cases hok; exact absurd rfl hp
    · rw [if_neg hmp] at hok
      by_cases hop : validate_data_path op = false
      · rw [if_pos hop] at hok; cases hok; exact absurd rfl hp
      · rw [if_neg hop] at hok
        cases hread : fs mp with
        | none => rw [hread] at hok; cases hok
        | some md =>
          rw [hread] at hok
          cases hok
          by_cases hps : p = op
          · subst hps
            exact Bool.not_eq_false _ |>.mp hop
          · exact absurd (fsWrite_other fs op p _ hps) hp

/-- Concrete instantiation of the amended C2 theorem: process_image with an
output path outside /data is denied and changes nothing. -/
theorem C2_amended_witness :
    process_image (fun img _ => img) "/data/a.png" "/etc/evil.png" none
      (fun _ => none) = .ok (fun _ => none) :=
  C2_amended_guarded_handlers.2.2.2.1 (fun img _ => img) "/data/a.png"
    "/etc/evil.png" none (fun _ => none) (Or.inr (by decide))

/-! ## Claim C3 -/

/-- Claim C3 is refuted on the code: for the task name "frobnicate_data",
absent from every registry entry, run_task returns the ordinary success
acknowledgment (no failure outcome of any kind is produced). -/
theorem C3_counterexample :
    (registryRequired.all (fun e => ¬(e.1 = "frobnicate_data"))) = true ∧
    run_task (fun _ => .ok ⟨"frobnicate_data", "\x7b\x7d"⟩)
      (fun _ => .ok []) (fun _ _ => .ok ()) "do something odd" =
      .success "frobnicate_data Task \x27do something odd\x27 executed successfully" := by
  refine ⟨by decide, ?_⟩
  rfl

/-- Claim C3 (amended): for every task name absent from the registry (the
sixteen names of function_definitions_llm, which are exactly the names of
the run_task if-chain), run_task invokes no handler and returns the same
success acknowledgment as for a registered task, embedding the unmatched
name and the original prompt; no distinguishable UnknownTask failure
outcome exists. -/
theorem C3_amended_unknown_task_is_success
    (classify : String → Except String Classification)
    (jl : String → Except String (List (String × JsonVal)))
    (hx : String → List (String × JsonVal) → Except String Unit)
    (task name args : String)
    (hcl : classify task = .ok ⟨name, args⟩)
    (habsent : ∀ r ∈ registryRequired, ¬(r.1 = name)) :
    run_task classify jl hx task =
      .success (name ++ " Task \x27" ++ task ++ "\x27 executed successfully") := by
  have habsent2 : ∀ e ∈ dispatchTable, ¬(e.1 = name) := by
    intro e he
    have hmap : e.1 ∈ registryRequired.map (fun r => r.1) := by
      rw [← dispatch_names_eq_registry_names]
      exact List.mem_map.mpr ⟨e, he, rfl⟩
    rcases List.mem_map.mp hmap with ⟨r, hr, hre⟩
    rw [← hre]
    exact habsent r hr
  simp only [run_task, hcl, runBranches_skip jl hx name args dispatchTable habsent2]

/-- Concrete instantiation of the amended C3 theorem. -/
theorem C3_amended_witness :
    run_task (fun _ => .ok ⟨"launch_rockets", "\x7b\x7d"⟩)
      (fun _ => .ok []) (fun _ _ => .ok ()) "please launch" =
      .success "launch_rockets Task \x27please launch\x27 executed successfully" :=
  C3_amended_unknown_task_is_success _ _ _ "please launch" "launch_rockets"
    "\x7b\x7d" rfl (by decide)

/-! ## Claim C4 -/

/-- Claim C4 is refuted on the code: sort_contacts lists filename and
targetfile as required in the registry, yet dispatching it with the empty
argument object succeeds, keyword binding silently substituting the
handler-side Python defaults for both missing required parameters. -/
theorem C4_counterexample :
    (("sort_contacts", ["filename", "targetfile"]) ∈ registryRequired) ∧
    kwLookup [] "filename" = none ∧ kwLookup [] "targetfile" = none ∧
    bindKwargs [⟨"filename", some (.str "/data/contacts.json")⟩,
        ⟨"targetfile", some (.str "/data/contacts-sorted.json")⟩] [] =
      .ok [("filename", .str "/data/contacts.json"),
        ("targetfile", .str "/data/contacts-sorted.json")] ∧
    run_task (fun _ => .ok ⟨"sort_contacts", "\x7b\x7d"⟩) (fun _ => .ok [])
      (fun _ _ => .ok ()) "sort my contacts" =
      .success "sort_contacts Task \x27sort my contacts\x27 executed successfully" := by
  refine ⟨by decide, rfl, rfl, rfl, ?_⟩
  rfl

/-- Claim C4 (amended): dispatch performs no check against the registry
required arrays; keyword binding fails only for a missing parameter whose
Python formal has no default, a missing parameter with a Python default is
silently bound to that default value, and a binding failure surfaces as the
400 outcome of run_task. -/
theorem C4_amended_binding_uses_defaults :
    (∀ (params : List Param) (obj : List (String × JsonVal)) (p : Param),
        p ∈ params → kwLookup obj p.name = none → p.default = none →
        ∃ e, bindParams params obj = .error e) ∧
    (∀ (params : List Param) (obj : List (String × JsonVal)),
        (∀ p ∈ params, (kwLookup obj p.name).isSome ∨ p.default.isSome) →
        bindParams params obj = .ok (params.map (fun p => (p.name,
          match kwLookup obj p.name with
          | some v => v
          | none => p.default.getD JsonVal.null)))) ∧
    (∀ classify jl hx (task name args : String) (params : List Param) obj e,
        classify task = .ok ⟨name, args⟩ →
        (name, params) ∈ dispatchTable →
        jl args = .ok obj →
        bindKwargs params obj = .error e →
        run_task classify jl hx task = .httpError 400 e) := by
  refine ⟨?_, ?_, ?_⟩
  · intro params
    induction params with
    | nil => intro obj p hp; cases hp
    | cons q qs ih =>
      intro obj p hp hlook hdef
      rcases List.mem_cons.mp hp with rfl | hp2
      · refine ⟨"missing 1 required positional argument: " ++ p.name, ?_⟩
        simp only [bindParams, hlook, hdef]
      · unfold bindParams
        rcases ih obj p hp2 hlook hdef with ⟨e, he⟩
        cases hq : kwLookup obj q.name with
        | some v => rw [he]; exact ⟨e, rfl⟩
        | none =>
          cases hqd : q.default with
          | some d => rw [he]; exact ⟨e, rfl⟩
          | none => exact ⟨_, rfl⟩
  · intro params
    induction params with
    | nil => intro obj h; rfl
    | cons q qs ih =>
      intro obj h
      have hq := h q (List.mem_cons_self _ _)
      have hqs : ∀ p ∈ qs, (kwLookup obj p.name).isSome ∨ p.default.isSome :=
        fun p hp => h p (List.mem_cons_of_mem _ hp)
      unfold bindParams
      cases hlook : kwLookup obj q.name with
      | some v =>
        rw [ih obj hqs]
        simp [hlook]
      | none =>
        rw [hlook] at hq
        cases hdef : q.default with
        | none => rw [hdef] at hq; simp at hq
        | some d =>
          rw [ih obj hqs]
          simp [hlook, hdef]
  · intro classify jl hx task name args params obj e hcl hmem hjl hbind
    have hrb : runBranches jl hx name args dispatchTable = .error e := by
      rw [runBranches_of_mem jl hx args hmem dispatchTable_names_distinct]
      simp only [branchOnce, hjl, hbind]
    simp only [run_task, hcl, hrb]

/-- Concrete instantiation of the amended C4 theorem: a missing parameter
with no Python default (url of download_url_content) makes binding fail. -/
theorem C4_amended_witness :
    ∃ e, bindParams [⟨"url", none⟩, ⟨"save_path", none⟩] [] = .error e :=
  C4_amended_binding_uses_defaults.1 [⟨"url", none⟩, ⟨"save_path", none⟩] []
    ⟨"url", none⟩ (List.mem_cons_self _ _) rfl rfl

/-! ## Claim C5 -/

/-- The sort_contacts entry of the run_task if-chain. -/
theorem sort_contacts_entry_mem_dispatchTable :
    ("sort_contacts", [(⟨"filename", some (.str "/data/contacts.json")⟩ : Param),
      ⟨"targetfile", some (.str "/data/contacts-sorted.json")⟩]) ∈ dispatchTable := by
  unfold dispatchTable
  exact List.mem_cons_of_mem _ (List.mem_cons_of_mem _ (List.mem_cons_of_mem _
    (List.mem_cons_self _ _)))

/-- Claim C5 holds: run_task always produces either the success
acknowledgment or HTTPException(400, str(e)) (the structured failure
surfaced to the caller); in particular a classification error and an
exception raised inside the matched handler are both converted into the 400
outcome carrying the exception message, and nothing else can escape. -/
theorem C5_dispatcher_catches_all :
    (∀ classify jl hx task,
        (∃ m, run_task classify jl hx task = .success m) ∨
        (∃ d, run_task classify jl hx task = .httpError 400 d)) ∧
    (∀ classify jl hx task e, classify task = .error e →
        run_task classify jl hx task = .httpError 400 e) ∧
    (∀ classify jl hx (task name args : String) (params : List Param) obj bound e,
        classify task = .ok ⟨name, args⟩ →
        (name, params) ∈ dispatchTable →
        jl args = .ok obj →
        bindKwargs params obj = .ok bound →
        hx name bound = .error e →
        run_task classify jl hx task = .httpError 400 e) := by
  refine ⟨?_, ?_, ?_⟩
  · intro classify jl hx task
    cases h : classify task with
    | error e =>
      right
      exact ⟨e, by simp only [run_task, h]⟩
    | ok c =>
      cases h2 : runBranches jl hx c.name c.arguments dispatchTable with
      | error e =>
        right
        refine ⟨e, ?_⟩
        simp only [run_task, h, h2]
      | ok u =>
        left
        cases u
        refine ⟨c.name ++ " Task \x27" ++ task ++ "\x27 executed successfully", ?_⟩
        simp only [run_task, h, h2]
  · intro classify jl hx task e h
    simp only [run_task, h]
  · intro classify jl hx task name args params obj bound e hcl hmem hjl hbind hhx
    have hrb : runBranches jl hx name args dispatchTable = .error e := by
      rw [runBranches_of_mem jl hx args hmem dispatchTable_names_distinct]
      simp only [branchOnce, hjl, hbind, hhx]
    simp only [run_task, hcl, hrb]

/-- Concrete instantiation of C5: an exception raised inside the matched
handler surfaces as the 400 outcome carrying its message. -/
theorem C5_witness :
    run_task (fun _ => .ok ⟨"sort_contacts", "\x7b\x7d"⟩) (fun _ => .ok [])
      (fun _ _ => .error "boom in handler") "sort them" =
      .httpError 400 "boom in handler" :=
  C5_dispatcher_catches_all.2.2 _ _ _ "sort them" "sort_contacts" "\x7b\x7d"
    [⟨"filename", some (.str "/data/contacts.json")⟩,
      ⟨"targetfile", some (.str "/data/contacts-sorted.json")⟩]
    [] [("filename", .str "/data/contacts.json"),
      ("targetfile", .str "/data/contacts-sorted.json")]
    "boom in handler" rfl sort_contacts_entry_mem_dispatchTable rfl rfl rfl

/-! ## Claim C6 -/

/-- Claim C6 is refuted on the code: when the classifier returns a task name
absent from the registry together with a malformed arguments payload, the
payload is never parsed and run_task returns the success acknowledgment, not
a parse failure. -/
theorem C6_counterexample :
    run_task (fun _ => .ok ⟨"mystery_task", "not json (("⟩)
      (fun _ => .error "Expecting value: line 1 column 1 (char 0)")
      (fun _ _ => .ok ()) "do it" =
      .success "mystery_task Task \x27do it\x27 executed successfully" := by
  rfl

/-- Claim C6 (amended): when the classifier selects a task name present in
the registry and the arguments payload fails JSON parsing, run_task returns
the 400 failure whose detail is exactly the JSON decoder error message
(str(e)), and no handler body runs (the outcome does not depend on the
handler oracle); a payload for an unregistered name is never parsed. -/
theorem C6_amended_parse_error
    (classify : String → Except String Classification)
    (jl : String → Except String (List (String × JsonVal)))
    (hx : String → List (String × JsonVal) → Except String Unit)
    (task name args e : String) (params : List Param)
    (hcl : classify task = .ok ⟨name, args⟩)
    (hmem : (name, params) ∈ dispatchTable)
    (hjl : jl args = .error e) :
    run_task classify jl hx task = .httpError 400 e := by
  have hrb : runBranches jl hx name args dispatchTable = .error e := by
    rw [runBranches_of_mem jl hx args hmem dispatchTable_names_distinct]
    simp only [branchOnce, hjl]
  simp only [run_task, hcl, hrb]

/-- Concrete instantiation of the amended C6 theorem. -/
theorem C6_amended_witness :
    run_task (fun _ => .ok ⟨"sort_contacts", "\x7btruncated"⟩)
      (fun _ => .error "Expecting value: line 1 column 2 (char 1)")
      (fun _ _ => .ok ()) "sort the contacts file" =
      .httpError 400 "Expecting value: line 1 column 2 (char 1)" :=
  C6_amended_parse_error _ _ _ "sort the contacts file" "sort_contacts"
    "\x7btruncated" "Expecting value: line 1 column 2 (char 1)"
    [⟨"filename", some (.str "/data/contacts.json")⟩,
      ⟨"targetfile", some (.str "/data/contacts-sorted.json")⟩]
    rfl sort_contacts_entry_mem_dispatchTable rfl

/-! ## Claim C7 -/

/-- Claim C7 holds: for every input file holding a contacts array,
sort_contacts succeeds and the target file receives a permutation of the
same contacts that is sorted ascending by the (last_name, first_name) key
under the Python tuple-of-strings order. -/
theorem C7_sort_contacts_sorted
    (filename targetfile : String)
    (cfs : String → Option (List Contact)) (contacts : List Contact)
    (hread : cfs filename = some contacts) :
    ∃ cfs', sort_contacts filename targetfile cfs = .ok cfs' ∧
      ∃ out, cfs' targetfile = some out ∧
        List.Perm out contacts ∧ ContactsSorted out := by
  unfold sort_contacts
  rw [hread]
  refine ⟨_, rfl, sortedByKey contacts, ?_, sortedByKey_perm contacts,
    sortedByKey_sorted contacts⟩
  simp

/-- Concrete instantiation of C7 on a three-contact file. -/
theorem C7_witness :
    ∃ cfs', sort_contacts "/data/contacts.json" "/data/contacts-sorted.json"
        (fun p => if p = "/data/contacts.json" then
          some [⟨"Smith", "Ann", []⟩, ⟨"Adams", "Zoe", []⟩, ⟨"Adams", "Al", []⟩]
        else none) = .ok cfs' ∧
      ∃ out, cfs' "/data/contacts-sorted.json" = some out ∧
        List.Perm out [⟨"Smith", "Ann", []⟩, ⟨"Adams", "Zoe", []⟩, ⟨"Adams", "Al", []⟩] ∧
        ContactsSorted out :=
  C7_sort_contacts_sorted "/data/contacts.json" "/data/contacts-sorted.json" _
    [⟨"Smith", "Ann", []⟩, ⟨"Adams", "Zoe", []⟩, ⟨"Adams", "Al", []⟩] rfl

/-! ## Claim C8 -/

/-- Claim C8 holds: a second run of count_weekday_dates with the same
arguments, on a file system whose input file the first run left unchanged,
succeeds and leaves the target file with exactly the content the first run
wrote (the write is a plain overwrite, with no accumulation). -/
theorem C8_count_weekday_dates_idempotent
    (parseW : String → Except String Nat)
    (filename targetfile : String) (weekday : Int) (fs fs1 : FS)
    (h1 : count_weekday_dates parseW filename targetfile weekday fs = .ok fs1)
    (hunmod : fs1 filename = fs filename) :
    ∃ fs2, count_weekday_dates parseW filename targetfile weekday fs1 = .ok fs2 ∧
      fs2 targetfile = fs1 targetfile := by
  unfold count_weekday_dates at h1 ⊢
  cases hread : fs filename with
  | none => simp only [hread] at h1; cases h1
  | some lines =>
    simp only [hread] at h1
    cases hcnt : countWeekdayLines parseW weekday lines with
    | error e => simp only [hcnt] at h1; cases h1
    | ok cnt =>
      simp only [hcnt] at h1
      injection h1 with h2
      subst h2
      simp only [hunmod, hread, hcnt]
      refine ⟨_, rfl, ?_⟩
      rw [fsWrite_self, fsWrite_self]

/-- Concrete instantiation of C8: two runs on a one-line date file produce
the same target content. -/
theorem C8_witness :
    ∃ fs2, count_weekday_dates
        (fun s => if s = "2024-01-03" then .ok 2 else .error "unparsable")
        "/data/dates.txt" "/data/dates-wednesdays.txt" 3
        (fsWrite (fun p => if p = "/data/dates.txt" then some ["2024-01-03"] else none)
          "/data/dates-wednesdays.txt" ["1"]) = .ok fs2 ∧
      fs2 "/data/dates-wednesdays.txt" =
        fsWrite (fun p => if p = "/data/dates.txt" then some ["2024-01-03"] else none)
          "/data/dates-wednesdays.txt" ["1"] "/data/dates-wednesdays.txt" :=
  C8_count_weekday_dates_idempotent
    (fun s => if s = "2024-01-03" then .ok 2 else .error "unparsable")
    "/data/dates.txt" "/data/dates-wednesdays.txt" 3
    (fun p => if p = "/data/dates.txt" then some ["2024-01-03"] else none)
    (fsWrite (fun p => if p = "/data/dates.txt" then some ["2024-01-03"] else none)
      "/data/dates-wednesdays.txt" ["1"])
    rfl (by decide)

/-! ## Claim C9 -/

/-- Claim C9 holds: execute_sql_query applies the Path Guard to db_path
only (an unconfined db_path yields the None denial with no write), while on
the success path the result is written to output_filename for every
output_filename whatsoever; in particular there is a run with a confined
db_path and a successful query whose result lands on a path failing the
guard. -/
theorem C9_output_filename_unguarded :
    (∀ db dbp q out fs, validate_data_path dbp = false →
        execute_sql_query db dbp q out fs = .ok (none, fs)) ∧
    (∀ db dbp q out fs r, validate_data_path dbp = true → db dbp q = .ok r →
        execute_sql_query db dbp q out fs = .ok (some r, fsWrite fs out [r])) ∧
    (∃ (db : String → String → Except String String) (dbp q out : String)
        (fs fs' : FS) (r : String),
        validate_data_path dbp = true ∧ validate_data_path out = false ∧
        execute_sql_query db dbp q out fs = .ok (some r, fs') ∧
        fs' out = some [r]) := by
  refine ⟨?_, ?_, ?_⟩
  · intro db dbp q out fs h
    simp [execute_sql_query, h]
  · intro db dbp q out fs r hguard hdb
    unfold execute_sql_query
    rw [if_neg (by rw [hguard]; exact Bool.true_eq_false ▸ fun h => by cases h), hdb]
  · refine ⟨fun _ _ => .ok "[(7,)]", "/data/s.db", "SELECT 1", "/home/attacker/o.txt",
      fun _ => none, fsWrite (fun _ => none) "/home/attacker/o.txt" ["[(7,)]"],
      "[(7,)]", by decide, by decide, rfl, by decide⟩

/-- Concrete instantiation of C9: the unguarded output path receives the
query result. -/
theorem C9_witness :
    execute_sql_query (fun _ _ => .ok "[(99,)]") "/data/tickets.db" "SELECT 2"
      "/var/log/exfil.txt" (fun _ => none) =
      .ok (some "[(99,)]",
        fsWrite (fun _ => none) "/var/log/exfil.txt" ["[(99,)]"]) :=
  C9_output_filename_unguarded.2.1 (fun _ _ => .ok "[(99,)]") "/data/tickets.db"
    "SELECT 2" "/var/log/exfil.txt" (fun _ => none) "[(99,)]" (by decide) rfl

/-! ## Claim C10 -/

/-- The fallback value survives when no line passes the "From" check. -/
theorem senderOfLines_fallback (lines : List String)
    (h : ∀ l ∈ lines, startswithChars l.data ("From".data) = false) :
    senderOfLines lines = "sujay@gmail.com" := by
  induction lines with
  | nil => rfl
  | cons l rest ih =>
    have hl := h l (List.mem_cons_self _ _)
    simp only [senderOfLines, hl]
    simp only [Bool.false_eq_true, if_false]
    exact ih (fun l2 hl2 => h l2 (List.mem_cons_of_mem _ hl2))

/-- Claim C10 holds: when no line of the input file has "From" as its first
four characters, extract_email_sender succeeds and writes the fixed fallback
string "sujay@gmail.com" to the output file. -/
theorem C10_extract_email_sender_fallback
    (filename output_file : String) (fs : FS) (lines : List String)
    (hread : fs filename = some lines)
    (hnofrom : ∀ l ∈ lines, startswithChars l.data ("From".data) = false) :
    ∃ fs', extract_email_sender filename output_file fs = .ok fs' ∧
      fs' output_file = some ["sujay@gmail.com"] := by
  unfold extract_email_sender
  rw [hread]
  exact ⟨_, rfl, by rw [senderOfLines_fallback lines hnofrom, fsWrite_self]⟩

/-- Concrete instantiation of C10 on a two-line email file with no From
line. -/
theorem C10_witness :
    ∃ fs', extract_email_sender "/data/email.txt" "/data/email-sender.txt"
        (fun p => if p = "/data/email.txt" then
          some ["Subject: hi", "see you <a@b.c>"] else none) = .ok fs' ∧
      fs' "/data/email-sender.txt" = some ["sujay@gmail.com"] :=
  C10_extract_email_sender_fallback "/data/email.txt" "/data/email-sender.txt"
    _ ["Subject: hi", "see you <a@b.c>"] rfl (by decide)
